import Mathlib

/-!
Verification of the configuration loader, wire-format helpers and
validation/mechanism behaviour of the cyrus-sasl-oauth2-oidc plugin.

The Lean definitions below are a shallow embedding of the C sources:
`oauth2_parse_string_list`, `oauth2_config_get_string`,
`oauth2_config_get_int`, `oauth2_config_get_bool` and `oauth2_config_load`
from `src/oauth2_config.c`, and `create_xoauth2_string` from
`src/tests/integration/test_utils.c`.  The SASL settings store
(`utils->getopt` in the namespace "oauth2") is embedded as a function from
key to optional value.  Components whose implementation is not among the
provided sources (the Claims Validator, the two-step OAUTHBEARER state
machine and the wire parsers) are modelled from the specification and are
marked as such in their doc comments.
-/

set_option maxHeartbeats 1000000

/-- The SASL settings store: `utils->getopt(ctx, "oauth2", key, &value, NULL)`
returning `SASL_OK` with a non-NULL value is embedded as `store key = some v`. -/
abbrev SettingsStore := String → Option String

/-- Separator characters of `strtok(temp, " \t\n")` used by
`oauth2_parse_string_list`. -/
def isSepChar (c : Char) : Bool := c == ' ' || c == '\t' || c == '\n'

/-- Fuel-bounded worker for `strtokTokens`; any fuel of at least the
length of the list gives the same result. -/
def strtokTokensFuel : Nat → List Char → List (List Char)
  | 0, _ => []
  | _ + 1, [] => []
  | fuel + 1, c :: cs =>
    if isSepChar c then strtokTokensFuel fuel cs
    else (c :: cs.takeWhile (fun d => !isSepChar d)) ::
      strtokTokensFuel fuel (cs.dropWhile (fun d => !isSepChar d))

/-- The stream of tokens produced by repeated `strtok(_, " \t\n")` calls:
maximal runs of non-separator characters, in order. -/
def strtokTokens (l : List Char) : List (List Char) :=
  strtokTokensFuel l.length l

theorem strtokTokensFuel_nil (fuel : Nat) : strtokTokensFuel fuel [] = [] := by
  cases fuel <;> rfl

theorem strtokTokensFuel_congr (f1 : Nat) :
    ∀ (f2 : Nat) (l : List Char), l.length ≤ f1 → l.length ≤ f2 →
      strtokTokensFuel f1 l = strtokTokensFuel f2 l := by
  induction f1 with
  | zero =>
    intro f2 l h1 _
    have : l = [] := List.eq_nil_of_length_eq_zero (Nat.le_zero.mp h1)
    rw [this, strtokTokensFuel_nil, strtokTokensFuel_nil]
  | succ f1 ih =>
    intro f2 l h1 h2
    match l with
    | [] => rw [strtokTokensFuel_nil, strtokTokensFuel_nil]
    | c :: cs =>
      match f2 with
      | 0 => simp at h2
      | f2 + 1 =>
        simp only [List.length_cons, Nat.add_le_add_iff_right] at h1 h2
        simp only [strtokTokensFuel]
        by_cases h : isSepChar c
        · simp only [h, if_true]
          exact ih f2 cs h1 h2
        · have h' : isSepChar c = false := by simp [h]
          simp only [h', Bool.false_eq_true, if_false]
          have hd : (cs.dropWhile (fun d => !isSepChar d)).length ≤ cs.length :=
            (List.dropWhile_sublist _).length_le
          rw [ih f2 _ (Nat.le_trans hd h1) (Nat.le_trans hd h2)]

theorem strtokTokens_nil : strtokTokens [] = [] := rfl

theorem strtokTokens_cons_sep {c : Char} (cs : List Char) (h : isSepChar c = true) :
    strtokTokens (c :: cs) = strtokTokens cs := by
  simp only [strtokTokens, List.length_cons, strtokTokensFuel, h, if_true]

theorem strtokTokens_cons_tok {c : Char} (cs : List Char) (h : isSepChar c = false) :
    strtokTokens (c :: cs) = (c :: cs.takeWhile (fun d => !isSepChar d)) ::
      strtokTokens (cs.dropWhile (fun d => !isSepChar d)) := by
  simp only [strtokTokens, List.length_cons, strtokTokensFuel, h,
    Bool.false_eq_true, if_false]
  rw [strtokTokensFuel_congr cs.length _ _
    (List.dropWhile_sublist _).length_le (Nat.le_refl _)]

/-- Unfolding of `List.splitOnP` as "longest prefix without separator,
then split the remainder". -/
theorem splitOnP_take_drop (p : Char → Bool) (cs : List Char) :
    cs.splitOnP p = cs.takeWhile (fun d => !p d) ::
      (match cs.dropWhile (fun d => !p d) with
       | [] => []
       | _ :: rest => rest.splitOnP p) := by
  induction cs with
  | nil => rfl
  | cons c cs ih =>
    by_cases h : p c
    · simp [List.splitOnP_cons, h, List.takeWhile_cons, List.dropWhile_cons]
    · have h' : p c = false := by simp [h]
      simp only [List.splitOnP_cons, h', ih, List.takeWhile_cons,
        List.dropWhile_cons, Bool.not_false, List.modifyHead]
      simp

/-- The `strtok` token stream equals splitting on separators and dropping
the empty pieces: the tokens are exactly the whitespace-separated words. -/
theorem strtokTokens_eq_splitOnP (cs : List Char) :
    strtokTokens cs = (cs.splitOnP isSepChar).filter (fun t => !t.isEmpty) := by
  suffices hgen : ∀ n (cs : List Char), cs.length = n →
      strtokTokens cs = (cs.splitOnP isSepChar).filter (fun t => !t.isEmpty) by
    exact hgen cs.length cs rfl
  intro n
  induction n using Nat.strong_induction_on with
  | _ n ih =>
    intro cs hn
    match cs with
    | [] => simp [strtokTokens_nil, List.splitOnP_nil]
    | c :: cs =>
      simp only [List.length_cons] at hn
      by_cases h : isSepChar c
      · rw [strtokTokens_cons_sep cs h, List.splitOnP_cons]
        simp only [h, if_true, List.filter_cons, List.isEmpty_nil, Bool.not_true]
        exact ih cs.length (by omega) cs rfl
      · have h' : isSepChar c = false := by simp [h]
        rw [strtokTokens_cons_tok cs h', List.splitOnP_cons]
        simp only [h', if_false]
        rw [splitOnP_take_drop isSepChar cs]
        simp only [List.modifyHead, List.filter_cons, List.isEmpty_cons,
          Bool.not_false, if_true]
        have hdrop : (cs.dropWhile (fun d => !isSepChar d)).length ≤ cs.length :=
          (List.dropWhile_sublist _).length_le
        match hd : cs.dropWhile (fun d => !isSepChar d) with
        | [] => simp [strtokTokens_nil]
        | d :: rest =>
          have hdsep : isSepChar d = true := by
            have := List.head_dropWhile_not (fun d => !isSepChar d) cs
            rw [hd] at this
            simpa using this (by simp)
          rw [strtokTokens_cons_sep rest hdsep]
          have hlen : rest.length < n := by
            rw [hd] at hdrop; simp only [List.length_cons] at hdrop; omega
          rw [ih rest.length hlen rest rfl]
          simp

/-- The token stream is empty exactly when the input has no
non-separator character. -/
theorem strtokTokens_eq_nil_iff (cs : List Char) :
    strtokTokens cs = [] ↔ ∀ c ∈ cs, isSepChar c = true := by
  induction cs with
  | nil => simp [strtokTokens_nil]
  | cons c cs ih =>
    by_cases h : isSepChar c
    · rw [strtokTokens_cons_sep cs h]
      simp [h, ih]
    · have h' : isSepChar c = false := by simp [h]
      rw [strtokTokens_cons_tok cs h']
      simp [h']

/-- Embedding of `oauth2_parse_string_list` (src/oauth2_config.c:18-67).
Returns the list written into the output array together with the value
stored in `*count`; `(none, 0)` models the `NULL` returns (NULL input,
empty input, or no token found).  The C function tokenizes twice with
`strtok(_, " \t\n")` — once to count, once to fill, the fill loop being
bounded by the first count — which the embedding mirrors. -/
def oauth2_parse_string_list (input : Option String) : Option (List String) × Nat :=
  match input with
  | none => (none, 0)
  | some s =>
    if s.data.isEmpty then (none, 0)
    else
      let item_count := (strtokTokens s.data).length
      if item_count = 0 then (none, 0)
      else
        (some (((strtokTokens s.data).take item_count).map (fun t => String.mk t)),
         item_count)

/- Configuration keys (`OAUTH2_CONF_*`).  The header defining these macros is
not among the provided sources; the key strings follow the unit tests
(`oauth2_issuers`, `oauth2_audiences`, `oauth2_client_id` in
src/tests/unit/test_plugin.c) and the configuration-key list of the spec.
Only their distinctness matters below. -/

def OAUTH2_CONF_DISCOVERY_URLS : String := "oauth2_discovery_urls"
def OAUTH2_CONF_DISCOVERY_URL : String := "oauth2_discovery_url"
def OAUTH2_CONF_ISSUERS : String := "oauth2_issuers"
def OAUTH2_CONF_ISSUER : String := "oauth2_issuer"
def OAUTH2_CONF_CLIENT_ID : String := "oauth2_client_id"
def OAUTH2_CONF_CLIENT_SECRET : String := "oauth2_client_secret"
def OAUTH2_CONF_AUDIENCES : String := "oauth2_audiences"
def OAUTH2_CONF_AUDIENCE : String := "oauth2_audience"
def OAUTH2_CONF_SCOPE : String := "oauth2_scope"
def OAUTH2_CONF_USER_CLAIM : String := "oauth2_user_claim"
def OAUTH2_CONF_VERIFY_SIGNATURE : String := "oauth2_verify_signature"
def OAUTH2_CONF_SSL_VERIFY : String := "oauth2_ssl_verify"
def OAUTH2_CONF_TIMEOUT : String := "oauth2_timeout"
def OAUTH2_CONF_DEBUG : String := "oauth2_debug"

/- Default values (`OAUTH2_DEFAULT_*`).  Modelled from the spec: the header
defining them is not among the provided sources; §4.4 documents the default
user claim `email`, the remaining values are irrelevant to the claims. -/

def OAUTH2_DEFAULT_SCOPE : String := "openid"
def OAUTH2_DEFAULT_USER_CLAIM : String := "email"
def OAUTH2_DEFAULT_VERIFY_SIGNATURE : Bool := true
def OAUTH2_DEFAULT_SSL_VERIFY : Bool := true
def OAUTH2_DEFAULT_TIMEOUT : Int := 30
def OAUTH2_DEFAULT_DEBUG : Bool := false

/-- Embedding of `oauth2_config_get_string` (src/oauth2_config.c:80-88). -/
def oauth2_config_get_string (store : SettingsStore) (key : String)
    (default_value : Option String) : Option String :=
  match store key with
  | some value => some value
  | none => default_value

/-- Whitespace characters skipped by `strtol` (C `isspace`). -/
def isSpaceChar (c : Char) : Bool :=
  c == ' ' || c == '\t' || c == '\n' || c == '\x0b' || c == '\x0c' || c == '\r'

/-- Decimal value of a run of digit characters, accumulated most
significant digit first, as `strtol` does. -/
def digitsVal (ds : List Char) : Int :=
  ds.foldl (fun acc c => acc * 10 + ((c.toNat : Int) - 48)) 0

/-- Embedding of `strtol(value, &endptr, 10)` as used by
`oauth2_config_get_int`: returns the parsed value and the offset of
`endptr` from the start of the string (`0` both for an empty parse and
when no conversion was performed, matching `endptr == value`). -/
def strtol10 (cs : List Char) : Int × Nat :=
  let ws := cs.takeWhile isSpaceChar
  let afterWs := cs.dropWhile isSpaceChar
  match afterWs with
  | [] => (0, 0)
  | c :: rest =>
    if c = '-' then
      let ds := rest.takeWhile Char.isDigit
      if ds.isEmpty then (0, 0) else (-(digitsVal ds), ws.length + 1 + ds.length)
    else if c = '+' then
      let ds := rest.takeWhile Char.isDigit
      if ds.isEmpty then (0, 0) else (digitsVal ds, ws.length + 1 + ds.length)
    else
      let ds := (c :: rest).takeWhile Char.isDigit
      if ds.isEmpty then (0, 0) else (digitsVal ds, ws.length + ds.length)

def INT_MAX : Int := 2147483647

def INT_MIN : Int := -2147483648

/-- Embedding of `oauth2_config_get_int` (src/oauth2_config.c:90-117):
strict `strtol` validation (`endptr == value || *endptr != '\0'`), then an
`INT_MAX`/`INT_MIN` range check, falling back to the default. -/
def oauth2_config_get_int (store : SettingsStore) (key : String)
    (default_value : Int) : Int :=
  match store key with
  | some value =>
    let pr := strtol10 value.data
    if pr.2 = 0 ∨ pr.2 ≠ value.data.length then default_value
    else if pr.1 > INT_MAX ∨ pr.1 < INT_MIN then default_value
    else pr.1
  | none => default_value

/-- ASCII lower-casing, as applied character-wise by `strcasecmp` in the C
locale. -/
def asciiToLower (c : Char) : Char :=
  if 'A' ≤ c ∧ c ≤ 'Z' then Char.ofNat (c.toNat + 32) else c

/-- Embedding of `strcasecmp(a, b) == 0`: equality after ASCII
lower-casing both sides. -/
def strCaseEq (a b : String) : Bool :=
  a.data.map asciiToLower == b.data.map asciiToLower

/-- Embedding of `oauth2_config_get_bool` (src/oauth2_config.c:119-129):
`strcasecmp` against `yes`, `true` and `1`. -/
def oauth2_config_get_bool (store : SettingsStore) (key : String)
    (default_value : Bool) : Bool :=
  match store key with
  | some value =>
    strCaseEq value "yes" || strCaseEq value "true" || strCaseEq value "1"
  | none => default_value

/-- Configuration-load failures.  `oauth2_config_load` reports all of them
as `SASL_FAIL`; the constructors record which check fired, following the
distinct error messages of src/oauth2_config.c (and the spec's
`ConflictingSetting` / `MissingRequired` taxonomy). -/
inductive ConfigLoadError where
  | conflictDiscovery : ConfigLoadError
  | conflictIssuer : ConfigLoadError
  | missingProviderSource : ConfigLoadError
  | missingClientId : ConfigLoadError
  | conflictAudience : ConfigLoadError
deriving DecidableEq

/-- The spec's `ConflictingSetting` category. -/
def ConfigLoadError.isConflictingSetting : ConfigLoadError → Bool
  | .conflictDiscovery => true
  | .conflictIssuer => true
  | .conflictAudience => true
  | .missingProviderSource => false
  | .missingClientId => false

/-- The spec's `MissingRequired` category. -/
def ConfigLoadError.isMissingRequired : ConfigLoadError → Bool
  | .missingProviderSource => true
  | .missingClientId => true
  | .conflictDiscovery => false
  | .conflictIssuer => false
  | .conflictAudience => false

/-- The `oauth2_config_t` fields loaded by `oauth2_config_load`
(list fields paired with their `_count` fields, as in the C struct). -/
structure oauth2_config where
  discovery_urls : Option (List String)
  discovery_urls_count : Nat
  issuers : Option (List String)
  issuers_count : Nat
  client_id : Option String
  client_secret : Option String
  audiences : Option (List String)
  audiences_count : Nat
  scope : String
  user_claim : String
  verify_signature : Bool
  ssl_verify : Bool
  timeout : Int
  debug : Bool
deriving DecidableEq

/-- Discovery endpoint synthesized from an issuer
(src/oauth2_config.c:234-256): strip a single trailing `'/'`, then append
`"/.well-known/openid-configuration"`. -/
def deriveDiscoveryUrl (issuer_value : String) : String :=
  (if issuer_value.data.getLast? = some '/' then String.mk issuer_value.data.dropLast
   else issuer_value) ++ "/.well-known/openid-configuration"

/-- The value a setting family resolves to: the plural form is read first,
then the singular form, and the winning string is tokenized — the
`if (plural_str) ... else if (singular_str) ...` pattern repeated at
src/oauth2_config.c:196-201, 210-215 and 283-288. -/
def familyParsed (store : SettingsStore) (pluralKey singularKey : String) :
    Option (List String) × Nat :=
  match oauth2_config_get_string store pluralKey none with
  | some s => oauth2_parse_string_list (some s)
  | none =>
    match oauth2_config_get_string store singularKey none with
    | some s => oauth2_parse_string_list (some s)
    | none => (none, 0)

/-- Embedding of `oauth2_config_load` (src/oauth2_config.c:173-322).
`SASL_FAIL` returns are mapped to the `ConfigLoadError` naming the failed
check; the `SASL_NOMEM` allocation paths are not modelled. -/
def oauth2_config_load (store : SettingsStore) : Except ConfigLoadError oauth2_config :=
  let discovery_urls_str := oauth2_config_get_string store OAUTH2_CONF_DISCOVERY_URLS none
  let discovery_url_str := oauth2_config_get_string store OAUTH2_CONF_DISCOVERY_URL none
  let issuers_str := oauth2_config_get_string store OAUTH2_CONF_ISSUERS none
  let issuer_str := oauth2_config_get_string store OAUTH2_CONF_ISSUER none
  if discovery_urls_str.isSome && discovery_url_str.isSome then
    Except.error ConfigLoadError.conflictDiscovery
  else
    let dPair := familyParsed store OAUTH2_CONF_DISCOVERY_URLS OAUTH2_CONF_DISCOVERY_URL
    if issuers_str.isSome && issuer_str.isSome then
      Except.error ConfigLoadError.conflictIssuer
    else
      let iPair := familyParsed store OAUTH2_CONF_ISSUERS OAUTH2_CONF_ISSUER
      if dPair.1.isNone && iPair.1.isNone then
        Except.error ConfigLoadError.missingProviderSource
      else
        let dPair2 :=
          match dPair.1, iPair.1 with
          | none, some iss => (some (iss.map deriveDiscoveryUrl), iPair.2)
          | _, _ => dPair
        let client_id := oauth2_config_get_string store OAUTH2_CONF_CLIENT_ID none
        let client_secret := oauth2_config_get_string store OAUTH2_CONF_CLIENT_SECRET none
        if client_id.isNone then
          Except.error ConfigLoadError.missingClientId
        else
          let audiences_str := oauth2_config_get_string store OAUTH2_CONF_AUDIENCES none
          let audience_str := oauth2_config_get_string store OAUTH2_CONF_AUDIENCE none
          if audiences_str.isSome && audience_str.isSome then
            Except.error ConfigLoadError.conflictAudience
          else
            let aPair := familyParsed store OAUTH2_CONF_AUDIENCES OAUTH2_CONF_AUDIENCE
            Except.ok
              { discovery_urls := dPair2.1
                discovery_urls_count := dPair2.2
                issuers := iPair.1
                issuers_count := iPair.2
                client_id := client_id
                client_secret := client_secret
                audiences := aPair.1
                audiences_count := aPair.2
                scope := (oauth2_config_get_string store OAUTH2_CONF_SCOPE
                  (some OAUTH2_DEFAULT_SCOPE)).getD OAUTH2_DEFAULT_SCOPE
                user_claim := (oauth2_config_get_string store OAUTH2_CONF_USER_CLAIM
                  (some OAUTH2_DEFAULT_USER_CLAIM)).getD OAUTH2_DEFAULT_USER_CLAIM
                verify_signature := oauth2_config_get_bool store
                  OAUTH2_CONF_VERIFY_SIGNATURE OAUTH2_DEFAULT_VERIFY_SIGNATURE
                ssl_verify := oauth2_config_get_bool store
                  OAUTH2_CONF_SSL_VERIFY OAUTH2_DEFAULT_SSL_VERIFY
                timeout := oauth2_config_get_int store
                  OAUTH2_CONF_TIMEOUT OAUTH2_DEFAULT_TIMEOUT
                debug := oauth2_config_get_bool store
                  OAUTH2_CONF_DEBUG OAUTH2_DEFAULT_DEBUG }

/-- Projection of a load result onto the error it reports, if any. -/
def exceptError {ε α : Type} : Except ε α → Option ε
  | .error e => some e
  | .ok _ => none

/-- The outcome of the five configuration checks, in the textual order of
`oauth2_config_load`. -/
def loadOutcome (store : SettingsStore) : Option ConfigLoadError :=
  if (store OAUTH2_CONF_DISCOVERY_URLS).isSome && (store OAUTH2_CONF_DISCOVERY_URL).isSome then
    some ConfigLoadError.conflictDiscovery
  else if (store OAUTH2_CONF_ISSUERS).isSome && (store OAUTH2_CONF_ISSUER).isSome then
    some ConfigLoadError.conflictIssuer
  else if (familyParsed store OAUTH2_CONF_DISCOVERY_URLS OAUTH2_CONF_DISCOVERY_URL).1.isNone
      && (familyParsed store OAUTH2_CONF_ISSUERS OAUTH2_CONF_ISSUER).1.isNone then
    some ConfigLoadError.missingProviderSource
  else if (store OAUTH2_CONF_CLIENT_ID).isNone then
    some ConfigLoadError.missingClientId
  else if (store OAUTH2_CONF_AUDIENCES).isSome && (store OAUTH2_CONF_AUDIENCE).isSome then
    some ConfigLoadError.conflictAudience
  else none

theorem oauth2_config_get_string_no_default (store : SettingsStore) (key : String) :
    oauth2_config_get_string store key none = store key := by
  cases h : store key <;> simp [oauth2_config_get_string, h]

/-- The loader `oauth2_config_load` fails with exactly the first failing
check of `loadOutcome`, and succeeds when none fails. -/
theorem oauth2_config_load_error_eq_outcome (store : SettingsStore) :
    exceptError (oauth2_config_load store) = loadOutcome store := by
  simp only [oauth2_config_load, loadOutcome, oauth2_config_get_string_no_default]
  by_cases h1 : ((store OAUTH2_CONF_DISCOVERY_URLS).isSome
      && (store OAUTH2_CONF_DISCOVERY_URL).isSome) = true
  · simp [h1, exceptError]
  · simp only [Bool.not_eq_true] at h1
    simp only [h1, Bool.false_eq_true, if_false]
    by_cases h2 : ((store OAUTH2_CONF_ISSUERS).isSome
        && (store OAUTH2_CONF_ISSUER).isSome) = true
    · simp [h2, exceptError]
    · simp only [Bool.not_eq_true] at h2
      simp only [h2, Bool.false_eq_true, if_false]
      by_cases h3 : ((familyParsed store OAUTH2_CONF_DISCOVERY_URLS
            OAUTH2_CONF_DISCOVERY_URL).1.isNone
          && (familyParsed store OAUTH2_CONF_ISSUERS OAUTH2_CONF_ISSUER).1.isNone) = true
      · simp [h3, exceptError]
      · simp only [Bool.not_eq_true] at h3
        simp only [h3, Bool.false_eq_true, if_false]
        by_cases h4 : (store OAUTH2_CONF_CLIENT_ID).isNone = true
        · simp [h4, exceptError]
        · simp only [Bool.not_eq_true] at h4
          simp only [h4, Bool.false_eq_true, if_false]
          by_cases h5 : ((store OAUTH2_CONF_AUDIENCES).isSome
              && (store OAUTH2_CONF_AUDIENCE).isSome) = true
          · simp [h5, exceptError]
          · simp only [Bool.not_eq_true] at h5
            simp only [h5, Bool.false_eq_true, if_false]
            simp [exceptError]

theorem oauth2_config_load_eq_error_iff (store : SettingsStore) (e : ConfigLoadError) :
    oauth2_config_load store = Except.error e ↔ loadOutcome store = some e := by
  have h := oauth2_config_load_error_eq_outcome store
  constructor
  · intro hx
    rw [hx] at h
    simpa [exceptError] using h.symm
  · intro ho
    rw [ho] at h
    cases hx : oauth2_config_load store with
    | error e' =>
      rw [hx] at h
      simp only [exceptError, Option.some.injEq] at h
      rw [h]
    | ok cfg =>
      rw [hx] at h
      simp [exceptError] at h

theorem oauth2_config_load_isOk_iff (store : SettingsStore) :
    (oauth2_config_load store).isOk = true ↔ loadOutcome store = none := by
  have h := oauth2_config_load_error_eq_outcome store
  cases hx : oauth2_config_load store with
  | error e' =>
    rw [hx] at h
    simp only [exceptError] at h
    simp [Except.isOk, Except.toBool, ← h]
  | ok cfg =>
    rw [hx] at h
    simp only [exceptError] at h
    simp [Except.isOk, Except.toBool, ← h]

theorem oauth2_parse_string_list_count (input : Option String) (l : List String)
    (h : (oauth2_parse_string_list input).1 = some l) :
    (oauth2_parse_string_list input).2 = l.length := by
  match input with
  | none => simp [oauth2_parse_string_list] at h
  | some s =>
    simp only [oauth2_parse_string_list] at h ⊢
    by_cases he : s.data.isEmpty
    · simp [he] at h
    · simp only [he, Bool.false_eq_true, if_false] at h ⊢
      by_cases hc : (strtokTokens s.data).length = 0
      · simp [hc] at h
      · simp only [hc, if_false, List.take_length, Option.some.injEq] at h ⊢
        rw [← h]
        simp

theorem familyParsed_count (store : SettingsStore) (k1 k2 : String) (l : List String)
    (h : (familyParsed store k1 k2).1 = some l) :
    (familyParsed store k1 k2).2 = l.length := by
  simp only [familyParsed] at h ⊢
  cases h1 : oauth2_config_get_string store k1 none with
  | some s =>
    simp only [h1] at h ⊢
    exact oauth2_parse_string_list_count (some s) l h
  | none =>
    simp only [h1] at h ⊢
    cases h2 : oauth2_config_get_string store k2 none with
    | some s =>
      simp only [h2] at h ⊢
      exact oauth2_parse_string_list_count (some s) l h
    | none =>
      simp only [h2] at h
      simp at h

/- Concrete settings stores used to instantiate the configuration
theorems. -/

def storeDualDiscovery : SettingsStore := fun k =>
  if k = OAUTH2_CONF_DISCOVERY_URLS then some "https://a.example/conf"
  else if k = OAUTH2_CONF_DISCOVERY_URL then some "https://b.example/conf"
  else if k = OAUTH2_CONF_CLIENT_ID then some "client"
  else none

def storeEmpty : SettingsStore := fun _ => none

def storeBothAudienceOnly : SettingsStore := fun k =>
  if k = OAUTH2_CONF_AUDIENCES then some "aud1 aud2"
  else if k = OAUTH2_CONF_AUDIENCE then some "aud1"
  else none

def storeValidNoAudience : SettingsStore := fun k =>
  if k = OAUTH2_CONF_ISSUERS then some "https://idp.example"
  else if k = OAUTH2_CONF_CLIENT_ID then some "client"
  else none

def storeIssuersOnly : SettingsStore := fun k =>
  if k = OAUTH2_CONF_ISSUERS then
    some "https://idp.example/realm/ https://other.example"
  else if k = OAUTH2_CONF_CLIENT_ID then some "client"
  else none

/-- C1 (counterexample): a configuration with both audience forms present
and nothing else fails with the missing-provider error, which is not a
`ConflictingSetting` — refuting the claim for the audience family. -/
theorem c1_counterexample :
    oauth2_config_load storeBothAudienceOnly =
      Except.error ConfigLoadError.missingProviderSource ∧
    ConfigLoadError.missingProviderSource.isConflictingSetting = false := by
  constructor
  · rw [oauth2_config_load_eq_error_iff]
    decide
  · rfl

/-- C1 (amended): configuring both the plural and the singular form of the
discovery-endpoint family always fails with `ConflictingSetting`
(specifically the discovery conflict); for the issuer family it always
fails with some `ConflictingSetting` error; for the audience family it
fails with the audience conflict only once every earlier check (discovery
conflict, issuer conflict, provider presence, client identifier) has
passed — otherwise the earlier error wins. -/
theorem c1_dual_form_conflicting_setting (store : SettingsStore) :
    (((store OAUTH2_CONF_DISCOVERY_URLS).isSome
        && (store OAUTH2_CONF_DISCOVERY_URL).isSome) = true →
      oauth2_config_load store = Except.error ConfigLoadError.conflictDiscovery) ∧
    (((store OAUTH2_CONF_ISSUERS).isSome && (store OAUTH2_CONF_ISSUER).isSome) = true →
      ∃ e, oauth2_config_load store = Except.error e ∧ e.isConflictingSetting = true) ∧
    (((store OAUTH2_CONF_AUDIENCES).isSome && (store OAUTH2_CONF_AUDIENCE).isSome) = true →
      ((store OAUTH2_CONF_DISCOVERY_URLS).isSome
        && (store OAUTH2_CONF_DISCOVERY_URL).isSome) = false →
      ((store OAUTH2_CONF_ISSUERS).isSome && (store OAUTH2_CONF_ISSUER).isSome) = false →
      ((familyParsed store OAUTH2_CONF_DISCOVERY_URLS OAUTH2_CONF_DISCOVERY_URL).1.isNone
        && (familyParsed store OAUTH2_CONF_ISSUERS OAUTH2_CONF_ISSUER).1.isNone) = false →
      (store OAUTH2_CONF_CLIENT_ID).isNone = false →
      oauth2_config_load store = Except.error ConfigLoadError.conflictAudience) := by
  refine ⟨?_, ?_, ?_⟩
  · intro h
    rw [oauth2_config_load_eq_error_iff]
    simp [loadOutcome, h]
  · intro h
    by_cases h1 : ((store OAUTH2_CONF_DISCOVERY_URLS).isSome
        && (store OAUTH2_CONF_DISCOVERY_URL).isSome) = true
    · refine ⟨ConfigLoadError.conflictDiscovery, ?_, rfl⟩
      rw [oauth2_config_load_eq_error_iff]
      simp [loadOutcome, h1]
    · simp only [Bool.not_eq_true] at h1
      refine ⟨ConfigLoadError.conflictIssuer, ?_, rfl⟩
      rw [oauth2_config_load_eq_error_iff]
      simp [loadOutcome, h1, h]
  · intro h ha hb hc hd
    rw [oauth2_config_load_eq_error_iff]
    simp [loadOutcome, h, ha, hb, hc, hd]

/-- C1 (witness): instantiation of the amended theorem at a store with
both discovery forms set. -/
theorem c1_dual_form_conflicting_setting_witness :
    ((storeDualDiscovery OAUTH2_CONF_DISCOVERY_URLS).isSome
      && (storeDualDiscovery OAUTH2_CONF_DISCOVERY_URL).isSome) = true ∧
    oauth2_config_load storeDualDiscovery =
      Except.error ConfigLoadError.conflictDiscovery :=
  ⟨by decide, (c1_dual_form_conflicting_setting storeDualDiscovery).1 (by decide)⟩

/-- C2 (counterexample): a configuration with issuers and a client
identifier but with neither audience form present loads successfully —
refuting "for every setting family, configuring neither the singular nor
the plural form yields MissingRequired": the audience family is optional. -/
theorem c2_counterexample :
    storeValidNoAudience OAUTH2_CONF_AUDIENCES = none ∧
    storeValidNoAudience OAUTH2_CONF_AUDIENCE = none ∧
    (oauth2_config_load storeValidNoAudience).isOk = true := by
  refine ⟨rfl, rfl, ?_⟩
  rw [oauth2_config_load_isOk_iff]
  decide

/-- C2 (amended): provided no setting-family conflict fired first,
`oauth2_config_load` fails with a `MissingRequired` error when neither the
discovery-endpoint nor the issuer family (singular or plural) resolves to
at least one entry, and — providers being present — when the client
identifier is absent; a configuration with neither audience form and all
required settings present loads successfully (the audience family is
optional). -/
theorem c2_missing_required (store : SettingsStore) :
    (((store OAUTH2_CONF_DISCOVERY_URLS).isSome
        && (store OAUTH2_CONF_DISCOVERY_URL).isSome) = false →
     ((store OAUTH2_CONF_ISSUERS).isSome && (store OAUTH2_CONF_ISSUER).isSome) = false →
     (familyParsed store OAUTH2_CONF_DISCOVERY_URLS OAUTH2_CONF_DISCOVERY_URL).1 = none →
     (familyParsed store OAUTH2_CONF_ISSUERS OAUTH2_CONF_ISSUER).1 = none →
     oauth2_config_load store = Except.error ConfigLoadError.missingProviderSource ∧
       ConfigLoadError.missingProviderSource.isMissingRequired = true) ∧
    (((store OAUTH2_CONF_DISCOVERY_URLS).isSome
        && (store OAUTH2_CONF_DISCOVERY_URL).isSome) = false →
     ((store OAUTH2_CONF_ISSUERS).isSome && (store OAUTH2_CONF_ISSUER).isSome) = false →
     ((familyParsed store OAUTH2_CONF_DISCOVERY_URLS OAUTH2_CONF_DISCOVERY_URL).1.isNone
        && (familyParsed store OAUTH2_CONF_ISSUERS OAUTH2_CONF_ISSUER).1.isNone) = false →
     (store OAUTH2_CONF_CLIENT_ID).isNone = true →
     oauth2_config_load store = Except.error ConfigLoadError.missingClientId ∧
       ConfigLoadError.missingClientId.isMissingRequired = true) ∧
    (store OAUTH2_CONF_AUDIENCES = none →
     store OAUTH2_CONF_AUDIENCE = none →
     ((store OAUTH2_CONF_DISCOVERY_URLS).isSome
        && (store OAUTH2_CONF_DISCOVERY_URL).isSome) = false →
     ((store OAUTH2_CONF_ISSUERS).isSome && (store OAUTH2_CONF_ISSUER).isSome) = false →
     ((familyParsed store OAUTH2_CONF_DISCOVERY_URLS OAUTH2_CONF_DISCOVERY_URL).1.isNone
        && (familyParsed store OAUTH2_CONF_ISSUERS OAUTH2_CONF_ISSUER).1.isNone) = false →
     (store OAUTH2_CONF_CLIENT_ID).isNone = false →
     (oauth2_config_load store).isOk = true) := by
  refine ⟨?_, ?_, ?_⟩
  · intro h1 h2 h3 h4
    refine ⟨?_, rfl⟩
    rw [oauth2_config_load_eq_error_iff]
    simp [loadOutcome, h1, h2, h3, h4]
  · intro h1 h2 h3 h4
    refine ⟨?_, rfl⟩
    rw [oauth2_config_load_eq_error_iff]
    simp [loadOutcome, h1, h2, h3, h4]
  · intro ha hb h1 h2 h3 h4
    rw [oauth2_config_load_isOk_iff]
    simp [loadOutcome, ha, hb, h1, h2, h3, h4]

/-- C2 (witness): instantiation of the amended theorem at the empty store,
which resolves no provider and therefore reports the missing-provider
error. -/
theorem c2_missing_required_witness :
    (familyParsed storeEmpty OAUTH2_CONF_ISSUERS OAUTH2_CONF_ISSUER).1 = none ∧
    oauth2_config_load storeEmpty = Except.error ConfigLoadError.missingProviderSource :=
  ⟨by decide,
   ((c2_missing_required storeEmpty).1 (by decide) (by decide) (by decide) (by decide)).1⟩

/-- C10 (counterexample): a configuration with both audience forms and no
client identifier — and nothing else — fails with the missing-provider
error rather than the missing-client-identifier error, refuting the
claim's universally stated consequence. -/
theorem c10_counterexample :
    storeBothAudienceOnly OAUTH2_CONF_CLIENT_ID = none ∧
    (storeBothAudienceOnly OAUTH2_CONF_AUDIENCES).isSome = true ∧
    (storeBothAudienceOnly OAUTH2_CONF_AUDIENCE).isSome = true ∧
    oauth2_config_load storeBothAudienceOnly =
      Except.error ConfigLoadError.missingProviderSource ∧
    ConfigLoadError.missingProviderSource ≠ ConfigLoadError.missingClientId := by
  refine ⟨rfl, rfl, rfl, ?_, by decide⟩
  rw [oauth2_config_load_eq_error_iff]
  decide

/-- C10 (amended): `oauth2_config_load` checks configuration errors in the
fixed order discovery-form conflict, issuer-form conflict, missing
discovery-endpoints/issuers, missing client identifier, audience-form
conflict; consequently a configuration that passes the provider checks and
has both audience forms present but no client identifier fails with the
missing-client-identifier error, not the audience conflict (fourth
conjunct, which holds whatever the audience settings are). -/
theorem c10_config_check_order (store : SettingsStore) :
    (((store OAUTH2_CONF_DISCOVERY_URLS).isSome
        && (store OAUTH2_CONF_DISCOVERY_URL).isSome) = true →
      oauth2_config_load store = Except.error ConfigLoadError.conflictDiscovery) ∧
    (((store OAUTH2_CONF_DISCOVERY_URLS).isSome
        && (store OAUTH2_CONF_DISCOVERY_URL).isSome) = false →
     ((store OAUTH2_CONF_ISSUERS).isSome && (store OAUTH2_CONF_ISSUER).isSome) = true →
      oauth2_config_load store = Except.error ConfigLoadError.conflictIssuer) ∧
    (((store OAUTH2_CONF_DISCOVERY_URLS).isSome
        && (store OAUTH2_CONF_DISCOVERY_URL).isSome) = false →
     ((store OAUTH2_CONF_ISSUERS).isSome && (store OAUTH2_CONF_ISSUER).isSome) = false →
     ((familyParsed store OAUTH2_CONF_DISCOVERY_URLS OAUTH2_CONF_DISCOVERY_URL).1.isNone
        && (familyParsed store OAUTH2_CONF_ISSUERS OAUTH2_CONF_ISSUER).1.isNone) = true →
      oauth2_config_load store = Except.error ConfigLoadError.missingProviderSource) ∧
    (((store OAUTH2_CONF_DISCOVERY_URLS).isSome
        && (store OAUTH2_CONF_DISCOVERY_URL).isSome) = false →
     ((store OAUTH2_CONF_ISSUERS).isSome && (store OAUTH2_CONF_ISSUER).isSome) = false →
     ((familyParsed store OAUTH2_CONF_DISCOVERY_URLS OAUTH2_CONF_DISCOVERY_URL).1.isNone
        && (familyParsed store OAUTH2_CONF_ISSUERS OAUTH2_CONF_ISSUER).1.isNone) = false →
     (store OAUTH2_CONF_CLIENT_ID).isNone = true →
      oauth2_config_load store = Except.error ConfigLoadError.missingClientId) ∧
    (((store OAUTH2_CONF_DISCOVERY_URLS).isSome
        && (store OAUTH2_CONF_DISCOVERY_URL).isSome) = false →
     ((store OAUTH2_CONF_ISSUERS).isSome && (store OAUTH2_CONF_ISSUER).isSome) = false →
     ((familyParsed store OAUTH2_CONF_DISCOVERY_URLS OAUTH2_CONF_DISCOVERY_URL).1.isNone
        && (familyParsed store OAUTH2_CONF_ISSUERS OAUTH2_CONF_ISSUER).1.isNone) = false →
     (store OAUTH2_CONF_CLIENT_ID).isNone = false →
     ((store OAUTH2_CONF_AUDIENCES).isSome && (store OAUTH2_CONF_AUDIENCE).isSome) = true →
      oauth2_config_load store = Except.error ConfigLoadError.conflictAudience) := by
  refine ⟨?_, ?_, ?_, ?_, ?_⟩ <;> intros <;>
    rw [oauth2_config_load_eq_error_iff] <;>
    simp [loadOutcome, *]

/-- C10 (witness): instantiation of the fourth conjunct — both audience
forms present, providers present, no client identifier — reporting the
missing-client-identifier error, not the audience conflict. -/
theorem c10_config_check_order_witness :
    oauth2_config_load
      (fun k =>
        if k = OAUTH2_CONF_ISSUERS then some "https://idp.example"
        else if k = OAUTH2_CONF_AUDIENCES then some "aud1"
        else if k = OAUTH2_CONF_AUDIENCE then some "aud2"
        else none) = Except.error ConfigLoadError.missingClientId :=
  (c10_config_check_order
    (fun k =>
      if k = OAUTH2_CONF_ISSUERS then some "https://idp.example"
      else if k = OAUTH2_CONF_AUDIENCES then some "aud1"
      else if k = OAUTH2_CONF_AUDIENCE then some "aud2"
      else none)).2.2.2.1 (by decide) (by decide) (by decide) (by decide)

/-- C3: when the discovery-endpoint settings resolve to nothing and the
issuer settings resolve to the list `l`, a successful load synthesizes
exactly one discovery endpoint per issuer, in issuer order, each obtained
by `deriveDiscoveryUrl` (strip one trailing `/`, append
`/.well-known/openid-configuration`); and for the issuer
`https://idp.example/realm/` the derived endpoint is exactly
`https://idp.example/realm/.well-known/openid-configuration`. -/
theorem c3_issuers_synthesize_discovery (store : SettingsStore) (l : List String) :
    (((store OAUTH2_CONF_DISCOVERY_URLS).isSome
        && (store OAUTH2_CONF_DISCOVERY_URL).isSome) = false →
     (familyParsed store OAUTH2_CONF_DISCOVERY_URLS OAUTH2_CONF_DISCOVERY_URL).1 = none →
     ((store OAUTH2_CONF_ISSUERS).isSome && (store OAUTH2_CONF_ISSUER).isSome) = false →
     (familyParsed store OAUTH2_CONF_ISSUERS OAUTH2_CONF_ISSUER).1 = some l →
     (store OAUTH2_CONF_CLIENT_ID).isNone = false →
     ((store OAUTH2_CONF_AUDIENCES).isSome && (store OAUTH2_CONF_AUDIENCE).isSome) = false →
     ∃ cfg, oauth2_config_load store = Except.ok cfg ∧
       cfg.discovery_urls = some (l.map deriveDiscoveryUrl) ∧
       cfg.discovery_urls_count = l.length ∧
       cfg.issuers = some l) ∧
    deriveDiscoveryUrl "https://idp.example/realm/" =
      "https://idp.example/realm/.well-known/openid-configuration" := by
  constructor
  · intro h1 h2 h3 h4 h5 h6
    have hcount := familyParsed_count store OAUTH2_CONF_ISSUERS OAUTH2_CONF_ISSUER l h4
    simp only [oauth2_config_load, oauth2_config_get_string_no_default, h1, h2, h3,
      h4, h5, h6, Bool.false_eq_true, if_false, Option.isNone_none, Option.isNone_some,
      Bool.true_and, Bool.and_false]
    exact ⟨_, rfl, rfl, hcount, rfl⟩
  · decide

/-- C3 (witness): instantiation at a store configuring two issuers, the
first with a trailing slash. -/
theorem c3_issuers_synthesize_discovery_witness :
    (familyParsed storeIssuersOnly OAUTH2_CONF_ISSUERS OAUTH2_CONF_ISSUER).1 =
      some ["https://idp.example/realm/", "https://other.example"] ∧
    ∃ cfg, oauth2_config_load storeIssuersOnly = Except.ok cfg ∧
      cfg.discovery_urls =
        some ["https://idp.example/realm/.well-known/openid-configuration",
              "https://other.example/.well-known/openid-configuration"] ∧
      cfg.discovery_urls_count = 2 ∧
      cfg.issuers = some ["https://idp.example/realm/", "https://other.example"] := by
  refine ⟨by decide, ?_⟩
  have h := (c3_issuers_synthesize_discovery storeIssuersOnly
    ["https://idp.example/realm/", "https://other.example"]).1
    (by decide) (by decide) (by decide) (by decide) (by decide) (by decide)
  obtain ⟨cfg, hload, hurls, hcount, hiss⟩ := h
  refine ⟨cfg, hload, ?_, hcount, hiss⟩
  rw [hurls]
  decide

/-- C9: `oauth2_parse_string_list` returns the NULL/0 pair exactly when the
input is NULL, empty, or has no token with respect to the separators
space, tab and newline; otherwise it returns the whitespace-separated
tokens of the input, in order (characterized independently through
`List.splitOnP`), with the stored count equal to the length of the
returned list. -/
theorem c9_parse_string_list_spec (s : String) :
    (oauth2_parse_string_list none = (none, 0)) ∧
    ((s.data.splitOnP isSepChar).filter (fun t => !t.isEmpty) = [] →
      oauth2_parse_string_list (some s) = (none, 0)) ∧
    ((s.data.splitOnP isSepChar).filter (fun t => !t.isEmpty) ≠ [] →
      oauth2_parse_string_list (some s) =
        (some (((s.data.splitOnP isSepChar).filter (fun t => !t.isEmpty)).map
            (fun t => String.mk t)),
         ((s.data.splitOnP isSepChar).filter (fun t => !t.isEmpty)).length)) := by
  refine ⟨rfl, ?_, ?_⟩
  · intro h
    rw [← strtokTokens_eq_splitOnP] at h
    simp only [oauth2_parse_string_list]
    by_cases he : s.data.isEmpty
    · simp [he]
    · simp [he, h]
  · intro h
    rw [← strtokTokens_eq_splitOnP] at h
    have he : s.data.isEmpty = false := by
      cases hd : s.data with
      | nil =>
        exfalso
        apply h
        rw [hd, strtokTokens_nil]
      | cons c cs => simp
    have hc : ¬ (strtokTokens s.data).length = 0 := by
      simpa [List.length_eq_zero] using h
    simp only [oauth2_parse_string_list, he, Bool.false_eq_true, if_false, hc,
      List.take_length]
    rw [strtokTokens_eq_splitOnP]

/-- C9 (witness): instantiation at the input `" a  bc "`, whose tokens are
`a` and `bc` with count 2. -/
theorem c9_parse_string_list_spec_witness :
    ((" a  bc ".data.splitOnP isSepChar).filter (fun t => !t.isEmpty) ≠ []) ∧
    oauth2_parse_string_list (some " a  bc ") = (some ["a", "bc"], 2) := by
  refine ⟨by decide, ?_⟩
  have h := (c9_parse_string_list_spec " a  bc ").2.2 (by decide)
  rw [h]
  decide

/-- A string that is an optional sign followed by one or more digits and
nothing else — the claim's "well-formed decimal integer". -/
def plainDecimal (cs : List Char) : Bool :=
  match cs with
  | [] => false
  | c :: ds =>
    if c = '-' ∨ c = '+' then !ds.isEmpty && ds.all (fun d => d.isDigit)
    else (c :: ds).all (fun d => d.isDigit)

/-- The signed decimal value of a `plainDecimal` string. -/
def plainDecimalVal (cs : List Char) : Int :=
  match cs with
  | [] => 0
  | c :: ds =>
    if c = '-' then -(digitsVal ds)
    else if c = '+' then digitsVal ds
    else digitsVal (c :: ds)

theorem takeWhile_eq_nil_of_all_false {α : Type} {p : α → Bool} {l : List α}
    (h : ∀ c ∈ l, p c = false) : l.takeWhile p = [] := by
  cases l with
  | nil => rfl
  | cons a l =>
    rw [List.takeWhile_cons, h a (List.mem_cons_self a l)]
    simp

theorem takeWhile_eq_self_of_length {α : Type} {p : α → Bool} {l : List α}
    (h : (l.takeWhile p).length = l.length) : l.takeWhile p = l := by
  induction l with
  | nil => rfl
  | cons a l ih =>
    rw [List.takeWhile_cons] at h ⊢
    by_cases hp : p a
    · simp only [hp, if_true, List.length_cons, Nat.add_right_cancel_iff] at h ⊢
      rw [ih h]
    · have hp' : p a = false := by simp [hp]
      rw [hp'] at h
      simp at h

theorem isSpaceChar_eq_false_of_isDigit (c : Char) (h : c.isDigit = true) :
    isSpaceChar c = false := by
  cases hs : isSpaceChar c
  · rfl
  · exfalso
    simp only [isSpaceChar, Bool.or_eq_true, beq_iff_eq] at hs
    rcases hs with ((((h1 | h1) | h1) | h1) | h1) | h1 <;> subst h1 <;>
      exact absurd h (by decide)

theorem strtol10_of_no_digit (cs : List Char) (h : ∀ c ∈ cs, c.isDigit = false) :
    strtol10 cs = (0, 0) := by
  simp only [strtol10]
  cases ha : cs.dropWhile isSpaceChar with
  | nil => rfl
  | cons c rest =>
    have hsub : ∀ d ∈ c :: rest, d ∈ cs := by
      intro d hd
      exact (List.dropWhile_sublist isSpaceChar).subset (ha ▸ hd)
    have hcd : c.isDigit = false := h c (hsub c (List.mem_cons_self c rest))
    have hrest : ∀ d ∈ rest, d.isDigit = false :=
      fun d hd => h d (hsub d (List.mem_cons_of_mem c hd))
    have hds : rest.takeWhile Char.isDigit = [] := takeWhile_eq_nil_of_all_false hrest
    have hds2 : (c :: rest).takeWhile Char.isDigit = [] :=
      takeWhile_eq_nil_of_all_false (fun d hd => h d (hsub d hd))
    by_cases h1 : c = '-'
    · simp [h1, hds]
    · by_cases h2 : c = '+'
      · simp [h1, h2, hds]
      · simp [h1, h2, hds2]

theorem strtol10_plain (cs : List Char) (h : plainDecimal cs = true) :
    strtol10 cs = (plainDecimalVal cs, cs.length) := by
  match cs with
  | [] => simp [plainDecimal] at h
  | c :: ds =>
    simp only [plainDecimal] at h
    by_cases hsign : c = '-' ∨ c = '+'
    · rw [if_pos hsign] at h
      simp only [Bool.and_eq_true, Bool.not_eq_true', List.all_eq_true] at h
      obtain ⟨hne, hall⟩ := h
      have hds : ds.takeWhile Char.isDigit = ds :=
        List.takeWhile_eq_self_iff.mpr (fun d hd => hall d hd)
      have hspace : isSpaceChar c = false := by
        rcases hsign with h1 | h1 <;> subst h1 <;> decide
      rcases hsign with h1 | h1 <;> subst h1 <;>
        simp [strtol10, hspace, hds, hne, plainDecimalVal, Nat.add_comm]
    · push_neg at hsign
      rw [if_neg (by simpa using hsign)] at h
      simp only [List.all_cons, Bool.and_eq_true, List.all_eq_true] at h
      obtain ⟨hcd, hall⟩ := h
      have hspace : isSpaceChar c = false := isSpaceChar_eq_false_of_isDigit c hcd
      have hfull : (c :: ds).takeWhile Char.isDigit = c :: ds :=
        List.takeWhile_eq_self_iff.mpr (by
          intro d hd
          rcases List.mem_cons.mp hd with h1 | h1
          · subst h1; exact hcd
          · exact hall d h1)
      simp [strtol10, hspace, hfull, hsign.1, hsign.2, plainDecimalVal]

theorem getLast?_append_of_some (W l2 : List Char) (x : Char)
    (hx : l2.getLast? = some x) : (W ++ l2).getLast? = some x := by
  rw [List.getLast?_append, hx]
  rfl

theorem getLast?_cons_of_some (c : Char) (rest : List Char) (x : Char)
    (hx : rest.getLast? = some x) : (c :: rest).getLast? = some x :=
  getLast?_append_of_some [c] rest x hx

theorem last_digit_of_takeWhile_full (rest : List Char)
    (hfull : rest.takeWhile Char.isDigit = rest) (hne : rest ≠ []) :
    ∃ x, rest.getLast? = some x ∧ x.isDigit = true := by
  obtain ⟨x, hx⟩ := Option.isSome_iff_exists.mp ((List.getLast?_isSome).mpr hne)
  refine ⟨x, hx, ?_⟩
  have hxmem : x ∈ rest := List.mem_of_getLast?_eq_some hx
  rw [← hfull] at hxmem
  exact List.mem_takeWhile_imp hxmem

/-- When `strtol` consumes the whole string having performed a conversion,
the last character of the string is a digit. -/
theorem strtol10_ends_on_digit (cs : List Char) (hne0 : (strtol10 cs).2 ≠ 0)
    (hlen : (strtol10 cs).2 = cs.length) :
    ∃ x, cs.getLast? = some x ∧ x.isDigit = true := by
  have hsplit : cs.takeWhile isSpaceChar ++ cs.dropWhile isSpaceChar = cs :=
    List.takeWhile_append_dropWhile isSpaceChar cs
  cases ha : cs.dropWhile isSpaceChar with
  | nil =>
    exfalso; apply hne0; simp [strtol10, ha]
  | cons c rest =>
    have hcslen : cs.length = (cs.takeWhile isSpaceChar).length + (rest.length + 1) := by
      conv_lhs => rw [← hsplit]
      rw [ha]
      simp [List.length_append]
    by_cases h1 : c = '-'
    · subst h1
      by_cases hne : (rest.takeWhile Char.isDigit).isEmpty
      · exfalso; apply hne0; simp [strtol10, ha, hne]
      · have h2 : (strtol10 cs).2 =
            (cs.takeWhile isSpaceChar).length + 1 + (rest.takeWhile Char.isDigit).length := by
          simp [strtol10, ha, hne]
        rw [h2] at hlen
        have heq : (rest.takeWhile Char.isDigit).length = rest.length := by omega
        have hfull := takeWhile_eq_self_of_length heq
        have hrne : rest ≠ [] := by
          intro hc
          rw [hc] at hne
          simp at hne
        obtain ⟨x, hx, hdig⟩ := last_digit_of_takeWhile_full rest hfull hrne
        refine ⟨x, ?_, hdig⟩
        rw [← hsplit, ha]
        exact getLast?_append_of_some _ _ _ (getLast?_cons_of_some _ _ _ hx)
    · by_cases h2 : c = '+'
      · subst h2
        by_cases hne : (rest.takeWhile Char.isDigit).isEmpty
        · exfalso; apply hne0; simp [strtol10, ha, h1, hne]
        · have h3 : (strtol10 cs).2 =
              (cs.takeWhile isSpaceChar).length + 1 + (rest.takeWhile Char.isDigit).length := by
            simp [strtol10, ha, h1, hne]
          rw [h3] at hlen
          have heq : (rest.takeWhile Char.isDigit).length = rest.length := by omega
          have hfull := takeWhile_eq_self_of_length heq
          have hrne : rest ≠ [] := by
            intro hc
            rw [hc] at hne
            simp at hne
          obtain ⟨x, hx, hdig⟩ := last_digit_of_takeWhile_full rest hfull hrne
          refine ⟨x, ?_, hdig⟩
          rw [← hsplit, ha]
          exact getLast?_append_of_some _ _ _ (getLast?_cons_of_some _ _ _ hx)
      · by_cases hne : ((c :: rest).takeWhile Char.isDigit).isEmpty
        · exfalso; apply hne0; simp [strtol10, ha, h1, h2, hne]
        · have h3 : (strtol10 cs).2 =
              (cs.takeWhile isSpaceChar).length + ((c :: rest).takeWhile Char.isDigit).length := by
            simp [strtol10, ha, h1, h2, hne]
          rw [h3] at hlen
          have heq : ((c :: rest).takeWhile Char.isDigit).length = (c :: rest).length := by
            simp only [List.length_cons]
            omega
          have hfull := takeWhile_eq_self_of_length heq
          obtain ⟨x, hx, hdig⟩ :=
            last_digit_of_takeWhile_full (c :: rest) hfull (List.cons_ne_nil c rest)
          refine ⟨x, ?_, hdig⟩
          rw [← hsplit, ha]
          exact getLast?_append_of_some _ _ _ hx

/-- A settings store with one key overridden. -/
def setKey (store : SettingsStore) (key : String) (v : Option String) : SettingsStore :=
  fun k => if k = key then v else store k

theorem setKey_ne (store : SettingsStore) (key : String) (v : Option String)
    (k : String) (hk : k ≠ key) : setKey store key v k = store k := by
  simp [setKey, hk]

theorem loadOutcome_setKey_timeout (store : SettingsStore) (w : Option String) :
    loadOutcome (setKey store OAUTH2_CONF_TIMEOUT w) = loadOutcome store := by
  have hs : ∀ k, k ≠ OAUTH2_CONF_TIMEOUT →
      setKey store OAUTH2_CONF_TIMEOUT w k = store k :=
    fun k hk => setKey_ne store OAUTH2_CONF_TIMEOUT w k hk
  have hg : ∀ k, k ≠ OAUTH2_CONF_TIMEOUT →
      oauth2_config_get_string (setKey store OAUTH2_CONF_TIMEOUT w) k none =
        oauth2_config_get_string store k none := by
    intro k hk
    rw [oauth2_config_get_string_no_default, oauth2_config_get_string_no_default, hs k hk]
  have hf : ∀ k1 k2, k1 ≠ OAUTH2_CONF_TIMEOUT → k2 ≠ OAUTH2_CONF_TIMEOUT →
      familyParsed (setKey store OAUTH2_CONF_TIMEOUT w) k1 k2 = familyParsed store k1 k2 := by
    intro k1 k2 h1 h2
    simp only [familyParsed, hg k1 h1, hg k2 h2]
  simp only [loadOutcome,
    hs OAUTH2_CONF_DISCOVERY_URLS (by decide), hs OAUTH2_CONF_DISCOVERY_URL (by decide),
    hs OAUTH2_CONF_ISSUERS (by decide), hs OAUTH2_CONF_ISSUER (by decide),
    hs OAUTH2_CONF_CLIENT_ID (by decide), hs OAUTH2_CONF_AUDIENCES (by decide),
    hs OAUTH2_CONF_AUDIENCE (by decide),
    hf OAUTH2_CONF_DISCOVERY_URLS OAUTH2_CONF_DISCOVERY_URL (by decide) (by decide),
    hf OAUTH2_CONF_ISSUERS OAUTH2_CONF_ISSUER (by decide) (by decide)]

/-- C6: for a present integer setting, `oauth2_config_get_int` returns the
default when the value contains no digit at all (in particular when it is
empty), when the value ends in a non-digit character (trailing garbage for
`strtol`), and when a well-formed signed decimal is out of the `int`
range; it returns the parsed value for every well-formed in-range signed
decimal; and replacing the timeout setting by arbitrary text never changes
whether `oauth2_config_load` succeeds. -/
theorem c6_get_int_strict_validation (store : SettingsStore) (key : String) (d : Int)
    (v : String) (hv : store key = some v) :
    ((∀ c ∈ v.data, c.isDigit = false) → oauth2_config_get_int store key d = d) ∧
    (∀ c0, v.data.getLast? = some c0 → c0.isDigit = false →
      oauth2_config_get_int store key d = d) ∧
    (plainDecimal v.data = true → INT_MIN ≤ plainDecimalVal v.data →
      plainDecimalVal v.data ≤ INT_MAX →
      oauth2_config_get_int store key d = plainDecimalVal v.data) ∧
    (plainDecimal v.data = true →
      (plainDecimalVal v.data > INT_MAX ∨ plainDecimalVal v.data < INT_MIN) →
      oauth2_config_get_int store key d = d) ∧
    (∀ w : Option String,
      (oauth2_config_load (setKey store OAUTH2_CONF_TIMEOUT w)).isOk = true ↔
        (oauth2_config_load store).isOk = true) := by
  refine ⟨?_, ?_, ?_, ?_, ?_⟩
  · intro h
    simp [oauth2_config_get_int, hv, strtol10_of_no_digit v.data h]
  · intro c0 hlast hnd
    simp only [oauth2_config_get_int, hv]
    by_cases hcond : (strtol10 v.data).2 = 0 ∨ (strtol10 v.data).2 ≠ v.data.length
    · rw [if_pos hcond]
    · exfalso
      push_neg at hcond
      obtain ⟨x, hx, hdig⟩ := strtol10_ends_on_digit v.data hcond.1 hcond.2
      rw [hlast] at hx
      rw [Option.some.injEq] at hx
      rw [← hx] at hdig
      rw [hnd] at hdig
      exact Bool.false_ne_true hdig
  · intro hp hmin hmax
    have hne : v.data ≠ [] := by
      intro hcon
      rw [hcon] at hp
      simp [plainDecimal] at hp
    have hlen : ¬ v.length = 0 := by
      intro hc
      exact hne (List.eq_nil_of_length_eq_zero hc)
    simp only [oauth2_config_get_int, hv, strtol10_plain v.data hp]
    rw [if_neg (by simp [hlen]), if_neg (by omega)]
  · intro hp hout
    have hne : v.data ≠ [] := by
      intro hcon
      rw [hcon] at hp
      simp [plainDecimal] at hp
    have hlen : ¬ v.length = 0 := by
      intro hc
      exact hne (List.eq_nil_of_length_eq_zero hc)
    simp only [oauth2_config_get_int, hv, strtol10_plain v.data hp]
    rw [if_neg (by simp [hlen]), if_pos (by omega)]
  · intro w
    rw [oauth2_config_load_isOk_iff, oauth2_config_load_isOk_iff,
      loadOutcome_setKey_timeout]

/-- C6 (witness): the value `20s` of the timeout setting ends in a
non-digit, so the loader falls back to the default 30. -/
theorem c6_get_int_strict_validation_witness :
    (fun k => if k = OAUTH2_CONF_TIMEOUT then some "20s"
      else none : SettingsStore) OAUTH2_CONF_TIMEOUT = some "20s" ∧
    oauth2_config_get_int
      (fun k => if k = OAUTH2_CONF_TIMEOUT then some "20s" else none)
      OAUTH2_CONF_TIMEOUT 30 = 30 :=
  ⟨by decide,
   (c6_get_int_strict_validation
      (fun k => if k = OAUTH2_CONF_TIMEOUT then some "20s" else none)
      OAUTH2_CONF_TIMEOUT 30 "20s" (by decide)).2.1 's' (by decide) (by decide)⟩

/-- C7: a present boolean setting is loaded as true exactly when its value
equals `yes`, `true` or `1` under case-insensitive (ASCII lower-casing)
comparison, and as false for every other present value; the stored default
plays no role when the setting is present. -/
theorem c7_get_bool_truthy_tokens (store : SettingsStore) (key : String)
    (dflt : Bool) (v : String) (hv : store key = some v) :
    oauth2_config_get_bool store key dflt = true ↔
      (v.data.map asciiToLower = "yes".data ∨
       v.data.map asciiToLower = "true".data ∨
       v.data.map asciiToLower = "1".data) := by
  simp only [oauth2_config_get_bool, hv, strCaseEq, Bool.or_eq_true, beq_iff_eq]
  rw [(by decide : "yes".data.map asciiToLower = "yes".data),
    (by decide : "true".data.map asciiToLower = "true".data),
    (by decide : "1".data.map asciiToLower = "1".data)]
  rw [(rfl : "yes".data = ['y', 'e', 's']),
    (rfl : "true".data = ['t', 'r', 'u', 'e']),
    (rfl : "1".data = ['1'])]
  tauto

/-- C7 (witness): the value `TRUE` is accepted as true even with default
false, and the value `off` is rejected. -/
theorem c7_get_bool_truthy_tokens_witness :
    oauth2_config_get_bool
      (fun k => if k = OAUTH2_CONF_DEBUG then some "TRUE" else none)
      OAUTH2_CONF_DEBUG false = true ∧
    oauth2_config_get_bool
      (fun k => if k = OAUTH2_CONF_DEBUG then some "off" else none)
      OAUTH2_CONF_DEBUG true = false :=
  ⟨(c7_get_bool_truthy_tokens
      (fun k => if k = OAUTH2_CONF_DEBUG then some "TRUE" else none)
      OAUTH2_CONF_DEBUG false "TRUE" (by decide)).mpr (Or.inr (Or.inl (by decide))),
   by
    have h := c7_get_bool_truthy_tokens
      (fun k => if k = OAUTH2_CONF_DEBUG then some "off" else none)
      OAUTH2_CONF_DEBUG true "off" (by decide)
    cases hb : oauth2_config_get_bool
      (fun k => if k = OAUTH2_CONF_DEBUG then some "off" else none)
      OAUTH2_CONF_DEBUG true
    · rfl
    · exfalso
      rcases h.mp hb with h1 | h1 | h1 <;> revert h1 <;> decide⟩

/-- Embedding of `create_xoauth2_string`
(src/tests/integration/test_utils.c:14-27): the single-step wire message
`"user=" + username + "\x01auth=Bearer " + token + "\x01\x01"`. -/
def create_xoauth2_string (username tok : String) : String :=
  "user=" ++ username ++ "\x01auth=Bearer " ++ tok ++ "\x01\x01"

/-- Modelled from the spec: the single-step (XOAUTH2) server-side wire
parsing; the mechanism implementation is not among the provided sources.
Per §6 the message is `user=<name>^Aauth=Bearer <token>^A^A` with
`^A = 0x01`: split on the control byte, expect exactly the two fields
followed by the two empty trailing pieces, and check the fixed field
prefixes. -/
def xoauth2ParseChars (cs : List Char) : Option (List Char × List Char) :=
  match cs.splitOnP (fun c => c == '\x01') with
  | [userField, authField, [], []] =>
    if userField.take 5 = "user=".data ∧ authField.take 12 = "auth=Bearer ".data then
      some (userField.drop 5, authField.drop 12)
    else none
  | _ => none

/-- String-level wrapper of `xoauth2ParseChars`. -/
def xoauth2Parse (s : String) : Option (String × String) :=
  (xoauth2ParseChars s.data).map (fun pr => (String.mk pr.1, String.mk pr.2))

/-- C8 (counterexample): for a username containing the 0x01 delimiter, the
round trip does not recover the username — the constructed message parses
to `none` — refuting the claim as stated for every `u` and `t`. -/
theorem c8_counterexample :
    xoauth2Parse (create_xoauth2_string "a\x01b" "tok") ≠ some ("a\x01b", "tok") := by
  decide

/-- C8 (amended): for every username and token free of the 0x01 field
delimiter, constructing the single-step wire message and parsing it back
recovers exactly the username and the token. -/
theorem c8_xoauth2_roundtrip (u t : String)
    (hu : '\x01' ∉ u.data) (ht : '\x01' ∉ t.data) :
    xoauth2Parse (create_xoauth2_string u t) = some (u, t) := by
  have hlitA : ∀ x ∈ "user=".data, (x == '\x01') = false := by decide
  have hlitB : ∀ x ∈ "auth=Bearer ".data, (x == '\x01') = false := by decide
  have hA : ∀ x ∈ "user=".data ++ u.data, ¬ ((x == '\x01') = true) := by
    intro x hx hc
    rw [beq_iff_eq] at hc
    subst hc
    rcases List.mem_append.mp hx with h1 | h1
    · have h2 := hlitA _ h1
      simp at h2
    · exact hu h1
  have hB : ∀ x ∈ "auth=Bearer ".data ++ t.data, ¬ ((x == '\x01') = true) := by
    intro x hx hc
    rw [beq_iff_eq] at hc
    subst hc
    rcases List.mem_append.mp hx with h1 | h1
    · have h2 := hlitB _ h1
      simp at h2
    · exact ht h1
  have hdata : (create_xoauth2_string u t).data =
      ("user=".data ++ u.data) ++
        '\x01' :: (("auth=Bearer ".data ++ t.data) ++ '\x01' :: ['\x01']) := by
    simp [create_xoauth2_string, List.append_assoc]
  have hsplit : (("user=".data ++ u.data) ++
        '\x01' :: (("auth=Bearer ".data ++ t.data) ++ '\x01' :: ['\x01'])).splitOnP
          (fun c => c == '\x01') =
      ["user=".data ++ u.data, "auth=Bearer ".data ++ t.data, [], []] := by
    rw [List.splitOnP_first _ _ hA '\x01' (by decide)]
    rw [List.splitOnP_first _ _ hB '\x01' (by decide)]
    rw [(by decide : (['\x01'] : List Char).splitOnP (fun c => c == '\x01') = [[], []])]
  simp only [xoauth2Parse, xoauth2ParseChars, hdata, hsplit]
  rw [if_pos ⟨List.take_left' (by rfl), List.take_left' (by rfl)⟩]
  rw [List.drop_left' (by rfl : ("user=".data).length = 5),
    List.drop_left' (by rfl : ("auth=Bearer ".data).length = 12)]
  rfl

/-- C8 (witness): instantiation of the amended round trip at delimiter-free
username `alice` and token `tok123`. -/
theorem c8_xoauth2_roundtrip_witness :
    xoauth2Parse (create_xoauth2_string "alice" "tok123") = some ("alice", "tok123") :=
  c8_xoauth2_roundtrip "alice" "tok123" (by decide) (by decide)

/-- The validation failures of §4.4 / §7 of the spec. -/
inductive ValidationError where
  | Expired : ValidationError
  | NotYetValid : ValidationError
  | IssuerMismatch : ValidationError
  | AudienceMismatch : ValidationError
  | SignatureInvalid : ValidationError
  | MissingUsernameClaim : ValidationError
deriving DecidableEq

/-- An audience claim: a scalar or a list of strings (§3, Claims). -/
inductive AudClaim where
  | scalar (a : String) : AudClaim
  | multiple (as : List String) : AudClaim
deriving DecidableEq

/-- Audience set of a token, the scalar treated as a singleton (§3). -/
def audValues : Option AudClaim → List String
  | none => []
  | some (AudClaim.scalar a) => [a]
  | some (AudClaim.multiple as) => as

/-- The decoded payload view consumed by the Claims Validator (§3):
temporal claims, issuer, audience, and a generic claim lookup for the
username claim. -/
structure TokenClaims where
  exp : Option Int
  nbf : Option Int
  iss : Option String
  aud : Option AudClaim
  claims : String → Option String

/-- Modelled from the spec: the Claims Validator of §4.4 — its
implementation is not among the provided sources.  Checks run in the fixed
order temporal (expiry, then not-before), issuer, audience, signature,
username extraction, failing fast; the signature check is abstracted by
the `sigValid` verdict of the resolver/verifier collaborator and is
consulted only when `verify_signature` is enabled. -/
def validate (cfg : oauth2_config) (now : Int) (sigValid : Bool)
    (tok : TokenClaims) : Except ValidationError String :=
  if tok.exp.elim false (fun e => decide (e ≤ now)) then
    Except.error ValidationError.Expired
  else if tok.nbf.elim false (fun n => decide (now < n)) then
    Except.error ValidationError.NotYetValid
  else if cfg.issuers.isSome
      && !(tok.iss.elim false (fun i => (cfg.issuers.getD []).contains i)) then
    Except.error ValidationError.IssuerMismatch
  else if !(cfg.audiences.getD []).isEmpty
      && !((cfg.audiences.getD []).any (fun a => (audValues tok.aud).contains a)) then
    Except.error ValidationError.AudienceMismatch
  else if cfg.verify_signature && !sigValid then
    Except.error ValidationError.SignatureInvalid
  else
    match tok.claims cfg.user_claim with
    | some username => Except.ok username
    | none => Except.error ValidationError.MissingUsernameClaim

/-- The temporal check of §4.4 in isolation: expiry at or before now, then
not-before strictly after now; absent claims are skipped. -/
def temporalViolation (now : Int) (tok : TokenClaims) : Option ValidationError :=
  if tok.exp.elim false (fun e => decide (e ≤ now)) then
    some ValidationError.Expired
  else if tok.nbf.elim false (fun n => decide (now < n)) then
    some ValidationError.NotYetValid
  else none

/-- The issuer check of §4.4 in isolation. -/
def issuerRejected (cfg : oauth2_config) (tok : TokenClaims) : Bool :=
  cfg.issuers.isSome && !(tok.iss.elim false (fun i => (cfg.issuers.getD []).contains i))

/-- The audience check of §4.4 in isolation. -/
def audienceRejected (cfg : oauth2_config) (tok : TokenClaims) : Bool :=
  !(cfg.audiences.getD []).isEmpty
    && !((cfg.audiences.getD []).any (fun a => (audValues tok.aud).contains a))

/-- The signature check of §4.4 in isolation. -/
def signatureRejected (cfg : oauth2_config) (sigValid : Bool) : Bool :=
  cfg.verify_signature && !sigValid

/-- C4: for every configuration, token and clock, the Claims Validator's
checks run in the fixed order temporal, issuer, audience, signature,
failing fast: a temporal violation determines the error whatever the other
checks would say, the issuer check decides only once the temporal check
passed, the audience check only after temporal and issuer, and the
signature check only after all three. -/
theorem c4_validation_order (cfg : oauth2_config) (now : Int) (sigValid : Bool)
    (tok : TokenClaims) :
    (∀ e, temporalViolation now tok = some e →
      validate cfg now sigValid tok = Except.error e) ∧
    (temporalViolation now tok = none → issuerRejected cfg tok = true →
      validate cfg now sigValid tok = Except.error ValidationError.IssuerMismatch) ∧
    (temporalViolation now tok = none → issuerRejected cfg tok = false →
      audienceRejected cfg tok = true →
      validate cfg now sigValid tok = Except.error ValidationError.AudienceMismatch) ∧
    (temporalViolation now tok = none → issuerRejected cfg tok = false →
      audienceRejected cfg tok = false → signatureRejected cfg sigValid = true →
      validate cfg now sigValid tok = Except.error ValidationError.SignatureInvalid) := by
  have hnone : temporalViolation now tok = none →
      tok.exp.elim false (fun e => decide (e ≤ now)) = false ∧
      tok.nbf.elim false (fun n => decide (now < n)) = false := by
    intro ht
    simp only [temporalViolation] at ht
    by_cases h1 : tok.exp.elim false (fun e => decide (e ≤ now)) = true
    · rw [if_pos h1] at ht
      simp at ht
    · rw [if_neg h1] at ht
      by_cases h2 : tok.nbf.elim false (fun n => decide (now < n)) = true
      · rw [if_pos h2] at ht
        simp at ht
      · exact ⟨by simpa using h1, by simpa using h2⟩
  refine ⟨?_, ?_, ?_, ?_⟩
  · intro e he
    simp only [temporalViolation] at he
    by_cases h1 : tok.exp.elim false (fun e => decide (e ≤ now)) = true
    · rw [if_pos h1] at he
      rw [Option.some.injEq] at he
      subst he
      simp [validate, h1]
    · rw [if_neg h1] at he
      by_cases h2 : tok.nbf.elim false (fun n => decide (now < n)) = true
      · rw [if_pos h2] at he
        rw [Option.some.injEq] at he
        subst he
        simp only [Bool.not_eq_true] at h1
        simp [validate, h1, h2]
      · rw [if_neg h2] at he
        simp at he
  · intro ht hi
    obtain ⟨h1, h2⟩ := hnone ht
    simp only [issuerRejected] at hi
    simp only [validate, h1, h2, Bool.false_eq_true, if_false]
    rw [if_pos hi]
  · intro ht hi ha
    obtain ⟨h1, h2⟩ := hnone ht
    simp only [issuerRejected] at hi
    simp only [audienceRejected] at ha
    simp only [validate, h1, h2, Bool.false_eq_true, if_false]
    rw [if_neg (by simpa using hi), if_pos ha]
  · intro ht hi ha hs
    obtain ⟨h1, h2⟩ := hnone ht
    simp only [issuerRejected] at hi
    simp only [audienceRejected] at ha
    simp only [signatureRejected] at hs
    simp only [validate, h1, h2, Bool.false_eq_true, if_false]
    rw [if_neg (by simpa using hi), if_neg (by simpa using ha), if_pos hs]

/-- A sample configuration for instantiating the validator theorems. -/
def sampleConfig : oauth2_config :=
  { discovery_urls := some ["https://idp.example/.well-known/openid-configuration"]
    discovery_urls_count := 1
    issuers := some ["https://idp.example"]
    issuers_count := 1
    client_id := some "client"
    client_secret := none
    audiences := some ["aud1"]
    audiences_count := 1
    scope := "openid"
    user_claim := "email"
    verify_signature := true
    ssl_verify := true
    timeout := 30
    debug := false }

/-- A sample token that is expired and would also fail the issuer,
audience and signature checks — the temporal error wins. -/
def sampleExpiredToken : TokenClaims :=
  { exp := some 5
    nbf := none
    iss := some "https://evil.example"
    aud := some (AudClaim.scalar "other")
    claims := fun _ => none }

/-- C4 (witness): on an expired token that also violates issuer, audience
and signature, the validator reports `Expired` — the first check in the
order. -/
theorem c4_validation_order_witness :
    temporalViolation 10 sampleExpiredToken = some ValidationError.Expired ∧
    issuerRejected sampleConfig sampleExpiredToken = true ∧
    audienceRejected sampleConfig sampleExpiredToken = true ∧
    validate sampleConfig 10 false sampleExpiredToken =
      Except.error ValidationError.Expired :=
  ⟨rfl, rfl, rfl,
   (c4_validation_order sampleConfig 10 false sampleExpiredToken).1
     ValidationError.Expired rfl⟩

/-- The structured JSON error continuation of the two-step mechanism
(§4.5, §6): at minimum a machine-readable `status` field plus a
human-readable description. -/
structure ErrorContinuation where
  status : String
  description : String
deriving DecidableEq

/-- Modelled from the spec: the error continuation built for a validation
failure — machine-readable status identifying the failure category and a
human-readable message. -/
def mkErrorContinuation (e : ValidationError) : ErrorContinuation :=
  { status := "invalid_token"
    description :=
      match e with
      | ValidationError.Expired => "token expired"
      | ValidationError.NotYetValid => "token not yet valid"
      | ValidationError.IssuerMismatch => "issuer mismatch"
      | ValidationError.AudienceMismatch => "audience mismatch"
      | ValidationError.SignatureInvalid => "signature verification failed"
      | ValidationError.MissingUsernameClaim => "missing username claim" }

/-- States of the two-step (OAUTHBEARER) mechanism (§4.5). -/
inductive TwoStepState where
  | start : TwoStepState
  | awaitingContinuation : TwoStepState
  | doneSuccess : TwoStepState
  | doneFailure : TwoStepState
deriving DecidableEq

/-- Per-round output of the two-step mechanism towards the host framework. -/
inductive TwoStepOut where
  | challenge (c : ErrorContinuation) : TwoStepOut
  | authOk (username : String) : TwoStepOut
  | authFailed : TwoStepOut
deriving DecidableEq

/-- Modelled from the spec: the two-step (OAUTHBEARER) initial-message wire
parsing `n,a=<name>,^Aauth=Bearer <token>^A^A` of §6; the mechanism
implementation is not among the provided sources. -/
def oauthbearerParseChars (cs : List Char) : Option (List Char × List Char) :=
  match cs.splitOnP (fun c => c == '\x01') with
  | [hdr, authField, [], []] =>
    if hdr.take 4 = "n,a=".data ∧ hdr.getLast? = some ',' ∧
        authField.take 12 = "auth=Bearer ".data then
      some ((hdr.drop 4).dropLast, authField.drop 12)
    else none
  | _ => none

/-- String-level wrapper of `oauthbearerParseChars`. -/
def oauthbearerParse (s : String) : Option (String × String) :=
  (oauthbearerParseChars s.data).map (fun pr => (String.mk pr.1, String.mk pr.2))

/-- Modelled from the spec: one round of the two-step mechanism state
machine of §4.5, parameterized by the Claims Validator verdict on the
extracted token.  On `start` with a parsable message, a valid token
succeeds immediately; an invalid token emits one error continuation and
moves to `awaitingContinuation`, and the exchange terminates in failure
only on the following (empty) client acknowledgment. -/
def twoStepStep (validator : String → Except ValidationError String)
    (st : TwoStepState) (input : String) : TwoStepState × TwoStepOut :=
  match st with
  | TwoStepState.start =>
    match oauthbearerParse input with
    | some pr =>
      match validator pr.2 with
      | Except.ok username => (TwoStepState.doneSuccess, TwoStepOut.authOk username)
      | Except.error e =>
        (TwoStepState.awaitingContinuation,
         TwoStepOut.challenge (mkErrorContinuation e))
    | none => (TwoStepState.doneFailure, TwoStepOut.authFailed)
  | TwoStepState.awaitingContinuation => (TwoStepState.doneFailure, TwoStepOut.authFailed)
  | TwoStepState.doneSuccess => (TwoStepState.doneSuccess, TwoStepOut.authFailed)
  | TwoStepState.doneFailure => (TwoStepState.doneFailure, TwoStepOut.authFailed)

/-- Run of the two-step mechanism over a list of client messages from the
initial state, collecting the per-round outputs. -/
def twoStepRun (validator : String → Except ValidationError String)
    (msgs : List String) : TwoStepState × List TwoStepOut :=
  msgs.foldl
    (fun acc m =>
      ((twoStepStep validator acc.1 m).1, acc.2 ++ [(twoStepStep validator acc.1 m).2]))
    (TwoStepState.start, [])

/-- C5: for every initial message whose token the validator rejects, the
two-step mechanism does not terminate in the round that detected the
failure: it emits exactly one structured error continuation (carrying a
non-empty `status` field) and moves to `awaitingContinuation` — neither
success nor failure — and only the following empty client acknowledgment
terminates the exchange in failure; the two-round run produces exactly the
continuation and the final failure and never a success output. -/
theorem c5_two_step_error_continuation
    (validator : String → Except ValidationError String)
    (msg u t : String) (e : ValidationError)
    (hp : oauthbearerParse msg = some (u, t)) (hv : validator t = Except.error e) :
    twoStepStep validator TwoStepState.start msg =
      (TwoStepState.awaitingContinuation,
       TwoStepOut.challenge (mkErrorContinuation e)) ∧
    (mkErrorContinuation e).status ≠ "" ∧
    (twoStepStep validator TwoStepState.start msg).1 ≠ TwoStepState.doneSuccess ∧
    (twoStepStep validator TwoStepState.start msg).1 ≠ TwoStepState.doneFailure ∧
    twoStepStep validator TwoStepState.awaitingContinuation "" =
      (TwoStepState.doneFailure, TwoStepOut.authFailed) ∧
    twoStepRun validator [msg, ""] =
      (TwoStepState.doneFailure,
       [TwoStepOut.challenge (mkErrorContinuation e), TwoStepOut.authFailed]) := by
  have hstep : twoStepStep validator TwoStepState.start msg =
      (TwoStepState.awaitingContinuation,
       TwoStepOut.challenge (mkErrorContinuation e)) := by
    simp [twoStepStep, hp, hv]
  refine ⟨hstep, by simp [mkErrorContinuation], ?_, ?_, rfl, ?_⟩
  · rw [hstep]
    simp
  · rw [hstep]
    simp
  · simp only [twoStepRun, List.foldl_cons, List.foldl_nil]
    rw [hstep]
    simp [twoStepStep]

/-- A validator rejecting every token as expired, for instantiating the
two-step theorem. -/
def rejectingValidator : String → Except ValidationError String :=
  fun _ => Except.error ValidationError.Expired

/-- C5 (witness): instantiation at a concrete OAUTHBEARER initial message
with a rejected token: one continuation round, then terminal failure. -/
theorem c5_two_step_error_continuation_witness :
    oauthbearerParse "n,a=user@example,\x01auth=Bearer sometoken\x01\x01" =
      some ("user@example", "sometoken") ∧
    twoStepRun rejectingValidator
      ["n,a=user@example,\x01auth=Bearer sometoken\x01\x01", ""] =
      (TwoStepState.doneFailure,
       [TwoStepOut.challenge (mkErrorContinuation ValidationError.Expired),
        TwoStepOut.authFailed]) :=
  ⟨by decide,
   (c5_two_step_error_continuation rejectingValidator
      "n,a=user@example,\x01auth=Bearer sometoken\x01\x01" "user@example" "sometoken"
      ValidationError.Expired (by decide) rfl).2.2.2.2.2⟩
